import Mathlib

/-!
Shallow embedding of the capcom driver (src/src/capcom/src/lib.rs), a minimal
Windows kernel-mode driver that executes a caller-supplied payload with
CR4.SMEP cleared and interrupts disabled.  Machine registers are modelled as a
small state record, kernel-API side effects as explicit event traces, and the
fallible paths (failed `assert!`, which routes into the panic handler) as
`Except`.
-/

/-- Machine-visible register state touched by the driver: the 64-bit CR4
control register and the interrupt-enable flag of the current execution
unit. -/
structure MachineState where
  cr4 : Nat
  intEnabled : Bool
deriving DecidableEq

/-- A payload is an untrusted function executed in kernel context; it may
transform the whole machine state. -/
def Payload : Type := MachineState → MachineState

/-- Register-level events emitted by the privileged-execution primitive, in
program order. -/
inductive MEvent where
  | cli
  | sti
  | readCr4 (v : Nat)
  | writeCr4 (v : Nat)
  | callPayload
deriving DecidableEq

/-- The SMEP bit of CR4 (bit 20), from `const CR4_SMEP: u64 = 1 << 20`. -/
def CR4_SMEP : Nat := Nat.shiftLeft 1 20

/-- Embeds Rust `write_cr4`: a 64-bit register write (values wrap mod 2^64). -/
def write_cr4 (v : Nat) (s : MachineState) : MachineState :=
  ⟨v % 2 ^ 64, s.intEnabled⟩

/-- Embeds Rust `disable_smep`: `cli`, read CR4, write CR4 with the SMEP bit
cleared (`cr4 & !CR4_SMEP`; the u64 complement of the single bit is
2^64 - 1 - CR4_SMEP), and return the original CR4 value.  The event list
records the register operations in program order. -/
def disable_smep (s : MachineState) : (Nat × MachineState) × List MEvent :=
  let s1 : MachineState := ⟨s.cr4, false⟩
  let c := s1.cr4
  let s2 := write_cr4 (Nat.land c (2 ^ 64 - 1 - CR4_SMEP)) s1
  ((c, s2), [MEvent.cli, MEvent.readCr4 c,
             MEvent.writeCr4 (Nat.land c (2 ^ 64 - 1 - CR4_SMEP))])

/-- Embeds Rust `restore_smep`: write the saved CR4 value back, then `sti`. -/
def restore_smep (saved : Nat) (s : MachineState) : MachineState × List MEvent :=
  let s1 := write_cr4 saved s
  (⟨s1.cr4, true⟩, [MEvent.writeCr4 saved, MEvent.sti])

/-- Embeds Rust `run_payload`: `disable_smep`, invoke the payload (passing the
resolver, which the model treats as part of the opaque payload call), then
`restore_smep` with the saved CR4 value. -/
def run_payload (payload : Payload) (s : MachineState) : MachineState × List MEvent :=
  let r1 := disable_smep s
  let saved := r1.1.1
  let s1 := r1.1.2
  let s2 := payload s1
  let r2 := restore_smep saved s2
  (r2.1, r1.2 ++ MEvent.callPayload :: r2.2)

/-- Transcribed from the reference pseudocode of spec section 4.4
(`execute_unprotected`): disable interrupts, read the protection register,
write it with the protection bit cleared, invoke the payload, write back the
saved value, re-enable interrupts.  This definition follows the SPEC text and
exists only to be compared with `run_payload`, which follows the source. -/
def spec_execute_unprotected (payload : Payload) (s : MachineState) :
    MachineState × List MEvent :=
  let s1 : MachineState := ⟨s.cr4, false⟩
  let saved := s1.cr4
  let s2 := write_cr4 (Nat.land saved (2 ^ 64 - 1 - CR4_SMEP)) s1
  let s3 := payload s2
  let s4 := write_cr4 saved s3
  let s5 : MachineState := ⟨s4.cr4, true⟩
  (s5, [MEvent.cli, MEvent.readCr4 saved,
        MEvent.writeCr4 (Nat.land saved (2 ^ 64 - 1 - CR4_SMEP)),
        MEvent.callPayload, MEvent.writeCr4 saved, MEvent.sti])

/-- Recognizer for the payload-invocation event, used to count how many times
a handler invoked the payload. -/
def isPayloadCall : MEvent → Bool
  | MEvent.callPayload => true
  | _ => false

/-- Number of payload invocations recorded in an event trace. -/
def countPayloadCalls (tr : List MEvent) : Nat :=
  (tr.filter isPayloadCall).length

/-- C3: the privileged-execution step sequence of the code refines the spec
pseudocode exactly: for every payload and every starting machine state,
`run_payload` (built from `disable_smep` and `restore_smep` as in the source)
produces the same final state and the same event trace as the spec's
`execute_unprotected`, and that trace is exactly cli, read CR4, write CR4 with
SMEP cleared, payload call, write back the saved CR4, sti - in that order with
no other register operation in between. -/
theorem run_payload_refines_spec (payload : Payload) (s : MachineState) :
    run_payload payload s = spec_execute_unprotected payload s ∧
    (run_payload payload s).2 =
      [MEvent.cli, MEvent.readCr4 s.cr4,
       MEvent.writeCr4 (Nat.land s.cr4 (2 ^ 64 - 1 - CR4_SMEP)),
       MEvent.callPayload, MEvent.writeCr4 s.cr4, MEvent.sti] := by
  constructor <;> rfl

/-! ## Request model and the dispatch handlers -/

/-- NTSTATUS success predicate: `NT_SUCCESS(status)` holds when the signed
32-bit status is non-negative. -/
def NT_SUCCESS (s : Int) : Bool := decide (0 ≤ s)

/-- The success status code. -/
def STATUS_SUCCESS : Int := 0

/-- Device type tag `0xaa01` from the source. -/
def DEVICE_TYPE : Nat := 0xaa01

/-- From `const IOCTL_RUN_PAYLOAD: ULONG = (DEVICE_TYPE << 16) | 0x3044`, a
32-bit (ULONG) computation. -/
def IOCTL_RUN_PAYLOAD : Nat :=
  Nat.lor (Nat.shiftLeft DEVICE_TYPE 16) 0x3044 % 2 ^ 32

/-- Current stack location of an IRP: carries the device-control selector. -/
structure IoStackLocation where
  ioControlCode : Nat
deriving DecidableEq

/-- IO_STATUS_BLOCK: completion status and byte count (Information). -/
structure IoStatusBlock where
  status : Int
  information : Nat
deriving DecidableEq

/-- The fields of an I/O Request Packet the driver touches: the stack bounds
checked by the assertion, the current stack location, the system buffer
(already interpreted as a payload function pointer, as `driver_ioctl` does
with `buffer.cast::<PayloadType>()`), the status block, and how many times
`IofCompleteRequest` has been called on it. -/
structure Irp where
  currentLocation : Nat
  stackCount : Nat
  stack : IoStackLocation
  systemBuffer : Payload
  ioStatus : IoStatusBlock
  completedCount : Nat

/-- Embeds `IofCompleteRequest`: marks one completion of the request. -/
def IofCompleteRequest (irp : Irp) : Irp :=
  ⟨irp.currentLocation, irp.stackCount, irp.stack, irp.systemBuffer,
   irp.ioStatus, irp.completedCount + 1⟩

/-- Embeds `IoGetCurrentIrpStackLocation`: asserts
`CurrentLocation <= StackCount + 1` and returns the current stack location.
A failed `assert!` panics, which the embedding reports as `Except.error`. -/
def IoGetCurrentIrpStackLocation (irp : Irp) : Except Unit IoStackLocation :=
  if irp.currentLocation ≤ irp.stackCount + 1 then Except.ok irp.stack
  else Except.error ()

/-- Embeds `driver_open_close`: set `IoStatus.Status` to success and
`IoStatus.Information` to 0, complete the request, return success. -/
def driver_open_close (irp : Irp) : Irp × Int :=
  let irp1 : Irp := ⟨irp.currentLocation, irp.stackCount, irp.stack,
                     irp.systemBuffer, ⟨STATUS_SUCCESS, 0⟩, irp.completedCount⟩
  (IofCompleteRequest irp1, STATUS_SUCCESS)

/-- Result of a device-control dispatch that did not panic: the completed
request, the machine state after any payload run, the number of payload
invocations recorded in the register-event trace, and the handler's return
status. -/
structure IoctlOutcome where
  irp : Irp
  machine : MachineState
  payloadCalls : Nat
  ret : Int

/-- Embeds `driver_ioctl`: read the current stack location (asserting the
stack bound), run the payload from the system buffer exactly when the control
code equals `IOCTL_RUN_PAYLOAD`, set the status to success and complete the
request.  `Except.error` is the panic path of the failed assertion. -/
def driver_ioctl (irp : Irp) (m : MachineState) : Except Unit IoctlOutcome :=
  match IoGetCurrentIrpStackLocation irp with
  | Except.error _ => Except.error ()
  | Except.ok stack =>
    let control_code := stack.ioControlCode
    let run := if control_code = IOCTL_RUN_PAYLOAD
               then run_payload irp.systemBuffer m
               else (m, [])
    let irp1 : Irp := ⟨irp.currentLocation, irp.stackCount, irp.stack,
                       irp.systemBuffer,
                       ⟨STATUS_SUCCESS, irp.ioStatus.information⟩,
                       irp.completedCount⟩
    Except.ok ⟨IofCompleteRequest irp1, run.1, countPayloadCalls run.2,
               STATUS_SUCCESS⟩

/-- C1: for every device-control request with the recognized selector whose
payload returns normally and preserves CR4, the CR4 value after the call
equals the exact value before the call, and interrupts are enabled on the
success path. -/
theorem smep_roundtrip (irp : Irp) (m : MachineState)
    (hcr : m.cr4 < 2 ^ 64)
    (hwf : irp.currentLocation ≤ irp.stackCount + 1)
    (hcode : irp.stack.ioControlCode = IOCTL_RUN_PAYLOAD)
    (_hp : ∀ t, (irp.systemBuffer t).cr4 = t.cr4) :
    ∃ out, driver_ioctl irp m = Except.ok out ∧
      out.machine.cr4 = m.cr4 ∧ out.machine.intEnabled = true := by
  have h1 : driver_ioctl irp m =
      Except.ok ⟨IofCompleteRequest ⟨irp.currentLocation, irp.stackCount,
          irp.stack, irp.systemBuffer,
          ⟨STATUS_SUCCESS, irp.ioStatus.information⟩, irp.completedCount⟩,
        (run_payload irp.systemBuffer m).1,
        countPayloadCalls (run_payload irp.systemBuffer m).2,
        STATUS_SUCCESS⟩ := by
    simp [driver_ioctl, IoGetCurrentIrpStackLocation, if_pos hwf, hcode]
  refine ⟨_, h1, ?_, ?_⟩
  · show (run_payload irp.systemBuffer m).1.cr4 = m.cr4
    simp only [run_payload, disable_smep, restore_smep, write_cr4]
    exact Nat.mod_eq_of_lt hcr
  · show (run_payload irp.systemBuffer m).1.intEnabled = true
    simp only [run_payload, disable_smep, restore_smep, write_cr4]

/-- A trivial concrete payload (the identity on machine state). -/
def idPayload : Payload := fun t => t

/-- A concrete well-formed IRP carrying the recognized selector and the
identity payload. -/
def sampleIrp : Irp :=
  ⟨1, 1, ⟨IOCTL_RUN_PAYLOAD⟩, idPayload, ⟨STATUS_SUCCESS, 0⟩, 0⟩

/-- Witness for C1 at a concrete request and machine state. -/
theorem smep_roundtrip_witness :
    ∃ out, driver_ioctl sampleIrp ⟨5, true⟩ = Except.ok out ∧
      out.machine.cr4 = 5 ∧ out.machine.intEnabled = true :=
  smep_roundtrip sampleIrp ⟨5, true⟩ (by decide) (by decide) rfl
    (fun t => rfl)

/-- One run of the privileged-execution primitive records exactly one payload
invocation in its trace. -/
theorem countPayloadCalls_run_payload (p : Payload) (m : MachineState) :
    countPayloadCalls (run_payload p m).2 = 1 := rfl

/-- C2: a well-formed device-control request invokes the payload exactly once
if and only if its selector equals `IOCTL_RUN_PAYLOAD` (0xaa01 shifted left
16, or-ed with 0x3044); any other selector invokes no payload and leaves the
machine state untouched, and in every case the request completes once with
success status and the handler returns success. -/
theorem ioctl_selector_discrimination (irp : Irp) (m : MachineState)
    (hwf : irp.currentLocation ≤ irp.stackCount + 1) :
    ∃ out, driver_ioctl irp m = Except.ok out ∧
      (out.payloadCalls = 1 ↔ irp.stack.ioControlCode = IOCTL_RUN_PAYLOAD) ∧
      (irp.stack.ioControlCode ≠ IOCTL_RUN_PAYLOAD →
        out.payloadCalls = 0 ∧ out.machine = m) ∧
      out.irp.ioStatus.status = STATUS_SUCCESS ∧
      out.irp.completedCount = irp.completedCount + 1 ∧
      out.ret = STATUS_SUCCESS := by
  by_cases hcode : irp.stack.ioControlCode = IOCTL_RUN_PAYLOAD
  · have h1 : driver_ioctl irp m =
        Except.ok ⟨IofCompleteRequest ⟨irp.currentLocation, irp.stackCount,
            irp.stack, irp.systemBuffer,
            ⟨STATUS_SUCCESS, irp.ioStatus.information⟩, irp.completedCount⟩,
          (run_payload irp.systemBuffer m).1,
          countPayloadCalls (run_payload irp.systemBuffer m).2,
          STATUS_SUCCESS⟩ := by
      simp [driver_ioctl, IoGetCurrentIrpStackLocation, if_pos hwf, hcode]
    refine ⟨_, h1, ?_, ?_, rfl, rfl, rfl⟩
    · simp [countPayloadCalls_run_payload, hcode]
    · intro hne; exact absurd hcode hne
  · have h1 : driver_ioctl irp m =
        Except.ok ⟨IofCompleteRequest ⟨irp.currentLocation, irp.stackCount,
            irp.stack, irp.systemBuffer,
            ⟨STATUS_SUCCESS, irp.ioStatus.information⟩, irp.completedCount⟩,
          m, countPayloadCalls [], STATUS_SUCCESS⟩ := by
      simp [driver_ioctl, IoGetCurrentIrpStackLocation, if_pos hwf, hcode]
    refine ⟨_, h1, ?_, ?_, rfl, rfl, rfl⟩
    · simp [countPayloadCalls, hcode]
    · intro _; exact ⟨rfl, rfl⟩

/-- Witness for C2 at two concrete requests: one with the recognized selector
and one with selector 0. -/
theorem ioctl_selector_discrimination_witness :
    (∃ out, driver_ioctl sampleIrp ⟨5, true⟩ = Except.ok out ∧
      (out.payloadCalls = 1 ↔ sampleIrp.stack.ioControlCode = IOCTL_RUN_PAYLOAD) ∧
      (sampleIrp.stack.ioControlCode ≠ IOCTL_RUN_PAYLOAD →
        out.payloadCalls = 0 ∧ out.machine = ⟨5, true⟩) ∧
      out.irp.ioStatus.status = STATUS_SUCCESS ∧
      out.irp.completedCount = sampleIrp.completedCount + 1 ∧
      out.ret = STATUS_SUCCESS) ∧
    (∃ out, driver_ioctl ⟨1, 1, ⟨0⟩, idPayload, ⟨0, 0⟩, 0⟩ ⟨5, true⟩ = Except.ok out ∧
      (out.payloadCalls = 1 ↔ (IoStackLocation.mk 0).ioControlCode = IOCTL_RUN_PAYLOAD) ∧
      ((IoStackLocation.mk 0).ioControlCode ≠ IOCTL_RUN_PAYLOAD →
        out.payloadCalls = 0 ∧ out.machine = ⟨5, true⟩) ∧
      out.irp.ioStatus.status = STATUS_SUCCESS ∧
      out.irp.completedCount = 0 + 1 ∧
      out.ret = STATUS_SUCCESS) :=
  ⟨ioctl_selector_discrimination sampleIrp ⟨5, true⟩ (by decide),
   ioctl_selector_discrimination ⟨1, 1, ⟨0⟩, idPayload, ⟨0, 0⟩, 0⟩ ⟨5, true⟩
     (by decide)⟩

/-- Boolean check that a completed open/close request reported success with
zero output bytes. -/
def openCloseOk (r : Irp × Int) : Bool :=
  decide (r.1.ioStatus.status = STATUS_SUCCESS) &&
  decide (r.1.ioStatus.information = 0) &&
  decide (r.2 = STATUS_SUCCESS)

/-- C6: every OPEN and every CLOSE request (both are handled by
`driver_open_close`) completes exactly once with success status and zero
bytes of output information; the handler is a pure function of the single
request, so no per-handle state exists, and any number of requests in any
order all succeed the same way. -/
theorem open_close_always_succeeds :
    (∀ irp : Irp,
      (driver_open_close irp).2 = STATUS_SUCCESS ∧
      (driver_open_close irp).1.ioStatus.status = STATUS_SUCCESS ∧
      (driver_open_close irp).1.ioStatus.information = 0 ∧
      (driver_open_close irp).1.completedCount = irp.completedCount + 1) ∧
    (∀ reqs : List Irp,
      (reqs.map driver_open_close).all openCloseOk = true) := by
  constructor
  · intro irp; exact ⟨rfl, rfl, rfl, rfl⟩
  · intro reqs
    induction reqs with
    | nil => rfl
    | cons a l ih =>
      simp only [List.map_cons, List.all_cons, ih, Bool.and_true]
      rfl

/-- Actions taken by the panic handler, in program order. -/
inductive PanicAction where
  | log (info : String)
  | int3
  | bugCheck (code : Nat)
deriving DecidableEq

/-- The fixed stop code for manually-triggered halts. -/
def MANUALLY_INITIATED_CRASH : Nat := 0xe2

/-- Embeds `handle_panic`: print the panic info, break into the debugger when
`KdRefreshDebuggerNotPresent()` returned 0 (that is, a debugger IS present),
then bug-check with `MANUALLY_INITIATED_CRASH`.  The Rust function never
returns; the model returns the complete action trace. -/
def handle_panic (dbgNotPresent : Nat) (info : String) : List PanicAction :=
  PanicAction.log info ::
    ((if dbgNotPresent = 0 then [PanicAction.int3] else []) ++
      [PanicAction.bugCheck MANUALLY_INITIATED_CRASH])

/-- C8: on any panic the handler first logs the fault information and its
final action is always the bug check with stop code 0xe2
(MANUALLY_INITIATED_CRASH); it never ends in anything else, so there is no
silent return and no local recovery. -/
theorem panic_always_bugchecks (dbgNotPresent : Nat) (info : String) :
    (handle_panic dbgNotPresent info).head? = some (PanicAction.log info) ∧
    (handle_panic dbgNotPresent info).getLast? =
      some (PanicAction.bugCheck MANUALLY_INITIATED_CRASH) ∧
    MANUALLY_INITIATED_CRASH = 0xe2 := by
  refine ⟨rfl, ?_, rfl⟩
  by_cases hd : dbgNotPresent = 0 <;> simp [handle_panic, hd]

/-- C10: a device-control request whose current stack location index exceeds
its stack count plus one does not complete with an error status: the failed
assertion takes the panic path, on which the debugger break happens exactly
when a debugger is attached and the final action is the system halt with the
fixed stop code. -/
theorem ioctl_stack_assert_panics (irp : Irp) (m : MachineState)
    (hbad : irp.stackCount + 1 < irp.currentLocation) :
    driver_ioctl irp m = Except.error () ∧
    ∀ (dbg : Nat) (info : String),
      ((PanicAction.int3 ∈ handle_panic dbg info) ↔ dbg = 0) ∧
      (handle_panic dbg info).getLast? =
        some (PanicAction.bugCheck MANUALLY_INITIATED_CRASH) := by
  constructor
  · simp [driver_ioctl, IoGetCurrentIrpStackLocation, Nat.not_le.mpr hbad]
  · intro dbg info
    by_cases hd : dbg = 0 <;> simp [handle_panic, hd]

/-- Witness for C10 at a concrete malformed request. -/
theorem ioctl_stack_assert_panics_witness :
    driver_ioctl ⟨5, 1, ⟨IOCTL_RUN_PAYLOAD⟩, idPayload, ⟨0, 0⟩, 0⟩ ⟨5, true⟩ =
      Except.error () ∧
    ∀ (dbg : Nat) (info : String),
      ((PanicAction.int3 ∈ handle_panic dbg info) ↔ dbg = 0) ∧
      (handle_panic dbg info).getLast? =
        some (PanicAction.bugCheck MANUALLY_INITIATED_CRASH) :=
  ioctl_stack_assert_panics ⟨5, 1, ⟨IOCTL_RUN_PAYLOAD⟩, idPayload, ⟨0, 0⟩, 0⟩
    ⟨5, true⟩ (by decide)

/-! ## Driver lifecycle: entry and unload -/

/-- UTF-16 code units of the device name "\Device\Htsysm72FB". -/
def DEVICE_NAME : List Nat := "\\Device\\Htsysm72FB".data.map Char.toNat

/-- UTF-16 code units of the symbolic-link name "\DosDevices\Htsysm72FB". -/
def LINK_NAME : List Nat := "\\DosDevices\\Htsysm72FB".data.map Char.toNat

/-- UNICODE_STRING: byte length, maximum byte length, buffer. -/
structure UNICODE_STRING where
  Length : Nat
  MaximumLength : Nat
  Buffer : List Nat
deriving DecidableEq

/-- Embeds `RTL_CONSTANT_STRING`: both lengths are the code-unit count times
two, as a u16. -/
def RTL_CONSTANT_STRING (utf16 : List Nat) : UNICODE_STRING :=
  ⟨utf16.length * 2 % 2 ^ 16, utf16.length * 2 % 2 ^ 16, utf16⟩

/-- Kernel-API events emitted by the lifecycle functions, in program order. -/
inductive NtEvent where
  | debugBreak
  | createDevice (devType : Nat) (name : UNICODE_STRING)
  | createSymLink (link : UNICODE_STRING) (target : UNICODE_STRING)
  | registerUnload
  | registerCreate
  | registerClose
  | registerDeviceControl
  | printLoaded
  | deleteSymLink (link : UNICODE_STRING)
  | deleteDevice
deriving DecidableEq

/-- The two dispatch handlers installed by the entry point. -/
inductive HandlerId where
  | openClose
  | ioctl
deriving DecidableEq

/-- The DRIVER_OBJECT fields the entry point writes: whether `DriverUnload`
is set, and the three `MajorFunction` slots the driver assigns (CREATE,
CLOSE, DEVICE_CONTROL). -/
structure DriverObject where
  driverUnload : Bool
  majorCreate : Option HandlerId
  majorClose : Option HandlerId
  majorDeviceControl : Option HandlerId
deriving DecidableEq

/-- A driver object with nothing installed, as handed to the entry point. -/
def emptyDriver : DriverObject := ⟨false, none, none, none⟩

/-- Embeds `driver_entry`: break into the debugger when
`KdRefreshDebuggerNotPresent()` returned 0; create the device (asserting
success), create the symbolic link (asserting success), then register the
unload routine and the three dispatch handlers, print the load message and
return success.  `devStatus` and `linkStatus` are the statuses the kernel
returns for the two creation calls; a failed `assert!` panics, reported as
`Except.error` together with the events that happened before the panic. -/
def driver_entry (dbgNotPresent : Nat) (devStatus linkStatus : Int)
    (_driver : DriverObject) : List NtEvent × Except Unit (DriverObject × Int) :=
  let e0 := if dbgNotPresent = 0 then [NtEvent.debugBreak] else []
  let device_name := RTL_CONSTANT_STRING DEVICE_NAME
  let e1 := e0 ++ [NtEvent.createDevice DEVICE_TYPE device_name]
  if NT_SUCCESS devStatus = true then
    let link_name := RTL_CONSTANT_STRING LINK_NAME
    let e2 := e1 ++ [NtEvent.createSymLink link_name device_name]
    if NT_SUCCESS linkStatus = true then
      let driver1 : DriverObject :=
        ⟨true, some HandlerId.openClose, some HandlerId.openClose,
         some HandlerId.ioctl⟩
      let e3 := e2 ++ [NtEvent.registerUnload, NtEvent.registerCreate,
                       NtEvent.registerClose, NtEvent.registerDeviceControl,
                       NtEvent.printLoaded]
      (e3, Except.ok (driver1, STATUS_SUCCESS))
    else (e2, Except.error ())
  else (e1, Except.error ())

/-- Embeds `driver_unload`: delete the symbolic link, ignoring the status the
kernel returns for that call (`let _ = IoDeleteSymbolicLink(..)`), then
delete the device object.  The Rust function returns `()`: it has no status
to report. -/
def driver_unload (deleteLinkStatus : Int) : List NtEvent :=
  let link_name := RTL_CONSTANT_STRING LINK_NAME
  let _ := deleteLinkStatus
  [NtEvent.deleteSymLink link_name, NtEvent.deleteDevice]

/-- C4: when both creations succeed, the entry point creates the device with
device type 0xaa01, then creates the symbolic link, then registers the unload
routine and the three dispatch handlers, in that order, and returns success;
when either creation fails, the entry point panics (load aborts) and no
dispatch handler is ever registered. -/
theorem entry_registration_order (dbg : Nat) (sdev slink : Int)
    (d : DriverObject) :
    (NT_SUCCESS sdev = true → NT_SUCCESS slink = true →
      (driver_entry dbg sdev slink d).2 =
        Except.ok (⟨true, some HandlerId.openClose, some HandlerId.openClose,
                    some HandlerId.ioctl⟩, STATUS_SUCCESS) ∧
      (driver_entry dbg sdev slink d).1 =
        (if dbg = 0 then [NtEvent.debugBreak] else []) ++
          [NtEvent.createDevice DEVICE_TYPE (RTL_CONSTANT_STRING DEVICE_NAME),
           NtEvent.createSymLink (RTL_CONSTANT_STRING LINK_NAME)
             (RTL_CONSTANT_STRING DEVICE_NAME),
           NtEvent.registerUnload, NtEvent.registerCreate,
           NtEvent.registerClose, NtEvent.registerDeviceControl,
           NtEvent.printLoaded]) ∧
    ((NT_SUCCESS sdev = false ∨ NT_SUCCESS slink = false) →
      (driver_entry dbg sdev slink d).2 = Except.error () ∧
      NtEvent.registerCreate ∉ (driver_entry dbg sdev slink d).1 ∧
      NtEvent.registerClose ∉ (driver_entry dbg sdev slink d).1 ∧
      NtEvent.registerDeviceControl ∉ (driver_entry dbg sdev slink d).1) := by
  constructor
  · intro hdev hlink
    constructor <;> simp [driver_entry, hdev, hlink]
  · intro hfail
    by_cases hdev : NT_SUCCESS sdev = true
    · have hlink : ¬(NT_SUCCESS slink = true) := by
        rcases hfail with hf | hf
        · rw [hdev] at hf; exact absurd hf (by simp)
        · simp [hf]
      refine ⟨?_, ?_, ?_, ?_⟩ <;>
        simp [driver_entry, hdev, hlink]
    · refine ⟨?_, ?_, ?_, ?_⟩ <;>
        simp [driver_entry, hdev]

/-- Witness for C4: the success branch at concrete statuses 0/0 and the
failure branch at a failing device-creation status. -/
theorem entry_registration_order_witness :
    ((driver_entry 1 0 0 emptyDriver).2 =
      Except.ok (⟨true, some HandlerId.openClose, some HandlerId.openClose,
                  some HandlerId.ioctl⟩, STATUS_SUCCESS)) ∧
    ((driver_entry 1 (-1) 0 emptyDriver).2 = Except.error () ∧
      NtEvent.registerCreate ∉ (driver_entry 1 (-1) 0 emptyDriver).1) := by
  have h1 := entry_registration_order 1 0 0 emptyDriver
  have h2 := entry_registration_order 1 (-1) 0 emptyDriver
  exact ⟨(h1.1 (by decide) (by decide)).1,
         (h2.2 (Or.inl (by decide))).1, (h2.2 (Or.inl (by decide))).2.1⟩

/-- C5 counterexample: with no debugger attached
(`KdRefreshDebuggerNotPresent()` returns 1), neither the entry point nor the
panic handler executes the breakpoint instruction, contradicting the claim
that the break happens when a debugger is NOT attached; the break actually
happens when a debugger IS attached (return value 0). -/
theorem debug_break_counterexample :
    PanicAction.int3 ∉ handle_panic 1 "fault" ∧
    NtEvent.debugBreak ∉ (driver_entry 1 0 0 emptyDriver).1 ∧
    PanicAction.int3 ∈ handle_panic 0 "fault" ∧
    NtEvent.debugBreak ∈ (driver_entry 0 0 0 emptyDriver).1 := by
  refine ⟨?_, ?_, ?_, ?_⟩ <;> decide

/-- C5 amended: on load and on any unrecoverable fault, the driver checks
whether a kernel debugger is attached and breaks with a breakpoint
instruction exactly when one IS attached (the check routine returns 0); the
break is bypassed when no debugger is attached. -/
theorem debug_break_iff_debugger_present (dbg : Nat) (sdev slink : Int)
    (d : DriverObject) (info : String) :
    (NtEvent.debugBreak ∈ (driver_entry dbg sdev slink d).1 ↔ dbg = 0) ∧
    ((PanicAction.int3 ∈ handle_panic dbg info) ↔ dbg = 0) := by
  constructor
  · by_cases hdev : NT_SUCCESS sdev = true
    · by_cases hlink : NT_SUCCESS slink = true
      · by_cases hb : dbg = 0 <;> simp [driver_entry, hdev, hlink, hb]
      · by_cases hb : dbg = 0 <;> simp [driver_entry, hdev, hlink, hb]
    · by_cases hb : dbg = 0 <;> simp [driver_entry, hdev, hb]
  · by_cases hb : dbg = 0 <;> simp [handle_panic, hb]

/-- C7: every unload first deletes the symbolic link and then, at a strictly
later position of its event sequence, deletes the device object. -/
theorem unload_unlinks_before_delete (st : Int) :
    driver_unload st =
      [NtEvent.deleteSymLink (RTL_CONSTANT_STRING LINK_NAME),
       NtEvent.deleteDevice] ∧
    ∃ i j : Nat, i < j ∧
      (driver_unload st)[i]? =
        some (NtEvent.deleteSymLink (RTL_CONSTANT_STRING LINK_NAME)) ∧
      (driver_unload st)[j]? = some NtEvent.deleteDevice :=
  ⟨rfl, 0, 1, by decide, rfl, rfl⟩

/-- C9: unload ignores the status of symbolic-link deletion: even when that
call fails, the event sequence is the same as on success and the device
object is still deleted; the Rust function returns `()`, so no failure can be
reported to the caller. -/
theorem unload_ignores_link_status (s1 : Int)
    (_hfail : NT_SUCCESS s1 = false) :
    driver_unload s1 = driver_unload STATUS_SUCCESS ∧
    NtEvent.deleteDevice ∈ driver_unload s1 :=
  ⟨rfl, by simp [driver_unload]⟩

/-- Witness for C9 at a concrete failing status. -/
theorem unload_ignores_link_status_witness :
    NT_SUCCESS (-1) = false ∧
    (driver_unload (-1) = driver_unload STATUS_SUCCESS ∧
      NtEvent.deleteDevice ∈ driver_unload (-1)) :=
  ⟨by decide, unload_ignores_link_status (-1) (by decide)⟩
